import Mathlib

/-!
Verification of the cached, retrying database-access layer of the
narrative-surgeon desktop application
(src/narrative-surgeon-desktop/src-tauri/src/{db.rs, error.rs}).

The Rust source is shallowly embedded:

* `AppError` mirrors the tagged error union of error.rs.  Creation
  timestamps (`Utc::now()`) are not modelled: wall-clock time is not
  observable in any verified property, and no claim refers to them.
* `retryWithBackoff` mirrors the control flow of `retry_with_backoff`
  (error.rs lines 439-468).  The asynchronous sleep and the
  floating-point backoff-delay arithmetic are not modelled: they
  influence only the timing of attempts, never which attempts happen,
  what they return, or how state evolves.  The possible panic of
  `last_error.unwrap()` is modelled by an `Option` result, `none`
  standing for the panic.
* The operation passed to the retry loop is modelled as a state-passing
  function `σ → Except E α × σ`, so that invocation counts and store
  effects are observable.
* `DatabaseService` state (db.rs lines 70-75) is the record `DbSt`:
  the `pool : Option DB`, the `query_cache : HashMap<String,String>`
  as an association list, plus counters for the externally observable
  effects (store calls, open attempts, configure attempts) and the
  error log.  Cache entries additionally carry a ghost insertion
  timestamp `insertedAt`; it is recorded by the model and read by no
  code path (the Rust map stores bare strings), existing solely so
  that TTL-shaped properties can be stated about runs.
* External effects (opening the store, running a statement, JSON
  serialization and parsing) are supplied by an environment `Env` of
  result oracles, indexed by invocation count where the code may call
  them several times.
-/

/-- Mirror of `AppError` (error.rs lines 9-122), one constructor per
variant with the data fields relevant to classification.  The
`timestamp: DateTime<Utc>` field carried by every variant is omitted
(wall-clock time; no verified property mentions it).  The Rust variant
`Export` is rendered `exportError` because `export` is a Lean keyword. -/
inductive AppError where
  | database (message : String) (code : Option String) (query : Option String)
  | fileSystem (message : String) (path : Option String) (operation : String)
  | network (message : String) (url : Option String) (statusCode : Option Nat)
  | validation (message : String) (field : Option String) (value : Option String)
  | exportError (message : String) (format : String) (path : Option String)
  | window (message : String) (windowLabel : Option String)
  | permission (message : String) (requiredPermission : String)
  | configuration (message : String) (setting : Option String)
  | notFound (resource : String) (id : Option String)
  | conflict (message : String) (resource : String) (existingId : Option String)
  | rateLimit (message : String) (retryAfter : Option Nat)
  | timeout (message : String) (timeoutMs : Nat) (operation : String)
  | internal (message : String) (errorCode : Option String)
  deriving DecidableEq, Repr

/-- `AppError::database` (error.rs lines 125-132). -/
def AppError.mkDatabase (message : String) : AppError :=
  .database message none none

/-- `AppError::database_with_query` (error.rs lines 134-141). -/
def AppError.databaseWithQuery (message query : String) : AppError :=
  .database message none (some query)

/-- `AppError::validation` (error.rs lines 179-186). -/
def AppError.mkValidation (message : String) : AppError :=
  .validation message none none

/-- `AppError::internal` (error.rs lines 222-228). -/
def AppError.mkInternal (message : String) : AppError :=
  .internal message none

/-- `AppError::is_retryable` (error.rs lines 240-256).  Network errors
with a status code are retryable for server errors (>= 500) and 429;
Network without a status, Database, Timeout and RateLimit are
retryable; everything else is not. -/
def AppError.isRetryable : AppError → Bool
  | .network _ _ statusCode =>
    match statusCode with
    | some code => 500 ≤ code || code == 429
    | none => true
  | .database _ _ _ => true
  | .fileSystem _ _ _ => false
  | .timeout _ _ _ => true
  | .rateLimit _ _ => true
  | .internal _ _ => false
  | _ => false

/-- Whether an error is of the Database kind (the discriminant of the
`AppError::Database` variant). -/
def AppError.isDatabase : AppError → Bool
  | .database _ _ _ => true
  | _ => false

/-- The body of the `for attempt in 1..=max_attempts` loop of
`retry_with_backoff` (error.rs lines 450-465), specialised to the
situation after the first failure has been observed.  `remaining` is
`max_attempts - attempt`, i.e. how many further attempts the loop may
still start; the loop retries only while `attempt < config.max_attempts
&& error.is_retryable()`.  The operation `op` threads a state `σ`
(capturing invocation counters and store effects). -/
def retryAux {σ E α : Type} (isR : E → Bool) (op : σ → Except E α × σ) :
    Nat → σ → Except E α × σ
  | 0, s =>
    match op s with
    | (.ok v, s') => (.ok v, s')
    | (.error e, s') => (.error e, s')
  | r + 1, s =>
    match op s with
    | (.ok v, s') => (.ok v, s')
    | (.error e, s') => if isR e then retryAux isR op r s' else (.error e, s')

/-- `retry_with_backoff` (error.rs lines 439-468).  With
`max_attempts = 0` the loop body never runs, `last_error` stays `None`,
and the final `last_error.unwrap()` panics: modelled by `none`.
Otherwise up to `maxAttempts` invocations are made and the outcome of
the last one is returned. -/
def retryWithBackoff {σ E α : Type} (isR : E → Bool) (op : σ → Except E α × σ)
    (maxAttempts : Nat) (s : σ) : Option (Except E α) × σ :=
  match maxAttempts with
  | 0 => (none, s)
  | m + 1 =>
    match retryAux isR op m s with
    | (r, s') => (some r, s')

/-- One cache entry.  The Rust `query_cache: HashMap<String, String>`
(db.rs line 73) stores only the serialized value; `insertedAt` is a
ghost timestamp recorded by the model at insertion time and read by no
code path, present only so that properties about entry age can be
stated about runs. -/
structure CacheEntry where
  val : String
  insertedAt : Nat
  deriving DecidableEq, Repr

/-- The mutable state of a `DatabaseService` (db.rs lines 70-75)
together with counters for the externally observable effects.
`pool` is the lazily initialised connection, `cache` the query cache
as an association list (most recent binding first), `storeCalls`,
`initCalls` and `cfgCalls` count invocations of the store-execute,
store-open and configure-sequence effects, and `log` collects the
errors passed to `error_logger.log_error`. -/
structure DbSt (DB V : Type) where
  pool : Option DB
  cache : List (String × CacheEntry)
  storeCalls : Nat
  initCalls : Nat
  cfgCalls : Nat
  log : List AppError
  deriving Repr

/-- Result oracles for the external collaborators: `initRes n` is the
outcome of the `n`-th attempt to open the store (the builder/migration
initialisation, db.rs lines 93-101), `pragmaRes n j` the outcome of the
`j`-th session-configuration statement during the `n`-th configure
attempt (db.rs lines 110-139), `store n` the outcome of the `n`-th
`db.execute` call issued by the facade, `ser`/`parse` the
`serde_json::to_string` / `serde_json::from_str` pair. -/
structure Env (DB V : Type) where
  initRes : Nat → Except AppError DB
  pragmaRes : Nat → Fin 4 → Except String Unit
  store : Nat → Except String V
  ser : V → Except String String
  parse : String → Except String V

/-- `HashMap::insert` on the association-list model: the new binding
replaces any previous binding of the same key. -/
def cacheInsert (c : List (String × CacheEntry)) (k : String) (v : String)
    (now : Nat) : List (String × CacheEntry) :=
  (k, ⟨v, now⟩) :: c.filter (fun p => !(p.1 == k))

/-- The read-only recognition of db.rs lines 155 and 190:
`sql.trim().to_uppercase().starts_with("SELECT")`, written out on the
character list: strip leading and trailing whitespace, uppercase every
character, check for the prefix `SELECT`.  (`Char.toUpper` is the
ASCII case map; Rust's Unicode `to_uppercase` agrees with it on the
ASCII letters the prefix test inspects.) -/
def isSelectStmt (sql : String) : Bool :=
  let t := ((sql.data.dropWhile Char.isWhitespace).reverse.dropWhile
    Char.isWhitespace).reverse
  List.isPrefixOf ['S', 'E', 'L', 'E', 'C', 'T'] (t.map Char.toUpper)

/-- Rust `Debug` escaping of one character inside a string literal:
a quote becomes `\"`, a backslash becomes `\\`, any other printable
character stands for itself.  (The control-character escapes of
`char::escape_debug` are not reproduced; they do not occur in SQL text
and, like the two modelled escapes, they keep the rendering uniquely
decodable.) -/
def escapeChar (c : Char) : List Char :=
  if c = '"' then ['\\', '"'] else if c = '\\' then ['\\', '\\'] else [c]

/-- Rust `Debug` escaping of a whole string body. -/
def escapeChars (l : List Char) : List Char :=
  l.flatMap escapeChar

/-- The comma-separated element list of the `Debug` rendering of a
`Vec<String>`: each element is quoted and escaped, elements are joined
by a comma and a space. -/
def dbgBody : List (List Char) → List Char
  | [] => []
  | [p] => '"' :: escapeChars p ++ ['"']
  | p :: q :: rest => '"' :: escapeChars p ++ '"' :: ',' :: ' ' :: dbgBody (q :: rest)

/-- The `Debug` rendering `{:?}` of a `Vec<String>`: the element list
in square brackets. -/
def dbgChars (ps : List (List Char)) : List Char :=
  '[' :: dbgBody ps ++ [']']

/-- Character-level cache key: `format!("{}:{:?}", sql, params)`
(db.rs line 152). -/
def keyChars (sql : List Char) (ps : List (List Char)) : List Char :=
  sql ++ ':' :: dbgChars ps

/-- The cache key of `execute_with_cache` as a string. -/
def cacheKeyFmt (sql : String) (params : List String) : String :=
  ⟨keyChars sql.data (params.map String.data)⟩

/-- The chain of four session-configuration statements of the
configure closure (db.rs lines 108-141), attempt `i`: the first
failing statement aborts the chain with a Database error carrying the
statement text. -/
def cfgOnce {DB V : Type} (env : Env DB V) (i : Nat) : Except AppError Unit :=
  match env.pragmaRes i 0 with
  | .error m =>
    .error (AppError.databaseWithQuery ("Failed to set WAL mode: " ++ m)
      "PRAGMA journal_mode=WAL")
  | .ok _ =>
    match env.pragmaRes i 1 with
    | .error m =>
      .error (AppError.databaseWithQuery ("Failed to set synchronous mode: " ++ m)
        "PRAGMA synchronous=NORMAL")
    | .ok _ =>
      match env.pragmaRes i 2 with
      | .error m =>
        .error (AppError.databaseWithQuery ("Failed to set cache size: " ++ m)
          "PRAGMA cache_size=10000")
      | .ok _ =>
        match env.pragmaRes i 3 with
        | .error m =>
          .error (AppError.databaseWithQuery ("Failed to enable foreign keys: " ++ m)
            "PRAGMA foreign_keys=ON")
        | .ok _ => .ok ()

/-- One attempt of the store-open closure (db.rs lines 90-102),
consuming the next open-attempt index. -/
def initOp {DB V : Type} (env : Env DB V) (s : DbSt DB V) :
    Except AppError DB × DbSt DB V :=
  (env.initRes s.initCalls, { s with initCalls := s.initCalls + 1 })

/-- One attempt of the configure closure (db.rs lines 106-143),
consuming the next configure-attempt index. -/
def cfgOp {DB V : Type} (env : Env DB V) (s : DbSt DB V) :
    Except AppError Unit × DbSt DB V :=
  (cfgOnce env s.cfgCalls, { s with cfgCalls := s.cfgCalls + 1 })

/-- `DatabaseService::get_connection` (db.rs lines 86-149).  The tokio
mutex around `pool` is held for the whole body, so concurrent callers
execute this function in some sequential order; the model is that
sequential body.  Both the open and the configure step run under
`retry_with_backoff` with `RetryConfig::default()` (`max_attempts = 3`,
hence `retryAux` with 2 remaining retries; see
`retryWithBackoff_three`).  `*pool = Some(db)` happens only after both
steps succeed, so a failure leaves `pool` untouched. -/
def getConnection {DB V : Type} (env : Env DB V) (st : DbSt DB V) :
    Except AppError DB × DbSt DB V :=
  match st.pool with
  | some db => (.ok db, st)
  | none =>
    match retryAux AppError.isRetryable (initOp env) 2 st with
    | (.error e, st₁) => (.error e, st₁)
    | (.ok db, st₁) =>
      match retryAux AppError.isRetryable (cfgOp env) 2 st₁ with
      | (.error e, st₂) => (.error e, st₂)
      | (.ok _, st₂) => (.ok db, { st₂ with pool := some db })

/-- One attempt of the execute closure of `execute_with_cache`
(db.rs lines 163-187): acquire a connection, then run the statement;
a store failure becomes a Database error carrying the statement text
and is appended to the error log (db.rs lines 173-185). -/
def execOnce {DB V : Type} (env : Env DB V) (sql : String) (s : DbSt DB V) :
    Except AppError V × DbSt DB V :=
  match getConnection env s with
  | (.error e, s') => (.error e, s')
  | (.ok _, s') =>
    match env.store s'.storeCalls with
    | .ok v => (.ok v, { s' with storeCalls := s'.storeCalls + 1 })
    | .error m =>
      let e := AppError.databaseWithQuery ("Query execution failed: " ++ m) sql
      (.error e, { s' with storeCalls := s'.storeCalls + 1, log := s'.log ++ [e] })

/-- `DatabaseService::execute_with_cache` (db.rs lines 151-198).
`now` is the ghost time of the call, recorded in the cache entry on
population and consulted by no code path.  For a SELECT statement a
present cache entry is returned (re-parsed) whatever its age; on a
miss the execute closure runs under the default three-attempt retry;
on success a SELECT result is serialized and inserted into the cache,
a serialization failure being propagated as an Internal error by the
`?` on db.rs line 193. -/
def executeWithCache {DB V : Type} (env : Env DB V) (now : Nat) (sql : String)
    (params : List String) (st : DbSt DB V) : Except AppError V × DbSt DB V :=
  let cacheKey := cacheKeyFmt sql params
  match (if isSelectStmt sql then st.cache.lookup cacheKey else none) with
  | some entry =>
    match env.parse entry.val with
    | .ok v => (.ok v, st)
    | .error m =>
      (.error (AppError.mkInternal ("Failed to parse cached result: " ++ m)), st)
  | none =>
    match retryAux AppError.isRetryable (execOnce env sql) 2 st with
    | (.error e, st') => (.error e, st')
    | (.ok v, st') =>
      if isSelectStmt sql then
        match env.ser v with
        | .error m =>
          (.error (AppError.mkInternal ("Failed to serialize result for cache: " ++ m)),
            st')
        | .ok srl => (.ok v, { st' with cache := cacheInsert st'.cache cacheKey srl now })
      else (.ok v, st')


/-- `ErrorLogger::get_recent_errors` (error.rs lines 371-384) on the
line list of the log file: the lines are walked in reverse
(`content.lines().rev()`), at most `limit` of them are taken, each is
parsed and unparseable lines are silently skipped
(`if let Ok(entry) = serde_json::from_str`), and the collected vector
is reversed again (`errors.reverse()`) before being returned.
`parseLine` stands for the `serde_json::from_str::<ErrorLogEntry>`
oracle, `lines` for the file content split into lines, oldest first
(the log is append-only, so file order is chronological order). -/
def getRecentErrors {E : Type} (parseLine : String → Option E)
    (lines : List String) (limit : Nat) : List E :=
  (((lines.reverse).take limit).filterMap parseLine).reverse

/-- `n` successive callers of `get_connection` on one shared service
state.  The tokio mutex is held for the entire body of
`get_connection`, so any concurrent execution of `n` callers performs
the `n` bodies in some sequential order; this runs them in one such
order and collects every caller's result. -/
def runCallers {DB V : Type} (env : Env DB V) :
    Nat → DbSt DB V → List (Except AppError DB) × DbSt DB V
  | 0, st => ([], st)
  | n + 1, st =>
    match getConnection env st with
    | (r, st') =>
      match runCallers env n st' with
      | (rs, st'') => (r :: rs, st'')

/-- Right-to-left recogniser for the region of a cache key produced by
`{:?}` of the parameter vector, used to show that the key format is
injective.  The input is the reversed character stream of everything
after the opening `[` rendered by `dbgChars` (so: reversed escaped
element bodies, delimiting quotes, and `", "` separators), and the
recogniser returns whatever follows the initial `[` of the rendering.
Reading the reversed stream inside an element body: `"` followed by
`\` is a reversed `\"` escape, `\` followed by `\` a reversed `\\`
escape, a bare `"` is the element's opening delimiter and must be
followed by the reversed separator `", "` (continuing with the
previous element) or by the opening `[` (end of the vector). -/
def parseInner : List Char → Option (List Char)
  | '"' :: '\\' :: r => parseInner r
  | '\\' :: '\\' :: r => parseInner r
  | '"' :: '[' :: r => some r
  | '"' :: ' ' :: ',' :: '"' :: r => parseInner r
  | '"' :: _ => none
  | '\\' :: _ => none
  | _ :: r => parseInner r
  | [] => none

/-- Right-to-left recogniser for a whole `dbgChars` rendering: the
reversed stream starts with the closing `]`, followed either directly
by the opening `[` (empty vector) or by the closing quote of the last
element. -/
def parseKeyRev : List Char → Option (List Char)
  | ']' :: '[' :: r => some r
  | ']' :: '"' :: r => parseInner r
  | _ => none

/-- The two retried steps inside `get_connection` and the retried
execute closure all run with `RetryConfig::default()`, whose
`max_attempts` is 3 (error.rs line 431): `retryAux` with 2 remaining
retries is exactly that instance of `retry_with_backoff`. -/
theorem retryWithBackoff_three {σ E α : Type} (isR : E → Bool)
    (op : σ → Except E α × σ) (s : σ) :
    retryWithBackoff isR op 3 s =
      (some (retryAux isR op 2 s).1, (retryAux isR op 2 s).2) := by
  simp [retryWithBackoff]

/-- Step equation: a successful attempt returns immediately. -/
theorem retryAux_ok {σ E α : Type} (isR : E → Bool) (op : σ → Except E α × σ)
    {s s' : σ} {v : α} (hop : op s = (.ok v, s')) :
    ∀ r, retryAux isR op r s = (.ok v, s') := by
  intro r
  cases r <;> simp [retryAux, hop]

/-- Step equation: a retryable failure with budget left retries from
the updated state. -/
theorem retryAux_succ_retry {σ E α : Type} (isR : E → Bool) (op : σ → Except E α × σ)
    {s s' : σ} {e : E} (hop : op s = (.error e, s')) (he : isR e = true) (r : Nat) :
    retryAux isR op (r + 1) s = retryAux isR op r s' := by
  simp [retryAux, hop, he]

/-- Step equation: a failure with no budget left is returned. -/
theorem retryAux_zero_err {σ E α : Type} (isR : E → Bool) (op : σ → Except E α × σ)
    {s s' : σ} {e : E} (hop : op s = (.error e, s')) :
    retryAux isR op 0 s = (.error e, s') := by
  simp [retryAux, hop]

/-- If the first attempt fails with a non-retryable error, the loop
breaks at once whatever the remaining budget. -/
theorem retryAux_stop_nonretryable {σ E α : Type} (isR : E → Bool)
    (op : σ → Except E α × σ) {s s' : σ} {e : E}
    (hop : op s = (.error e, s')) (he : isR e = false) :
    ∀ r, retryAux isR op r s = (.error e, s') := by
  intro r
  cases r <;> simp [retryAux, hop, he]

/-- Outcome of the retry loop for an operation modelled as an
invocation-indexed result family `f`, with the invocation counter as
state: some number `k` of attempts is made, `1 ≤ k ≤ remaining + 1`,
the result is the outcome of the last attempt, and every attempt
before the last failed with a retryable error. -/
theorem retryAux_char {E α : Type} (isR : E → Bool) (f : Nat → Except E α) :
    ∀ (r n₀ : Nat), ∃ k, 1 ≤ k ∧ k ≤ r + 1 ∧
      retryAux isR (fun n => (f n, n + 1)) r n₀ = (f (n₀ + k - 1), n₀ + k) ∧
      ∀ i, i + 1 < k → ∃ e, f (n₀ + i) = .error e ∧ isR e = true := by
  intro r
  induction r with
  | zero =>
    intro n₀
    refine ⟨1, le_refl 1, le_refl 1, ?_, by omega⟩
    rcases hf : f n₀ with e | v
    · have hop : (fun n => (f n, n + 1)) n₀ = ((Except.error e : Except E α), n₀ + 1) := by
        simp [hf]
      rw [retryAux_zero_err isR (fun n => (f n, n + 1)) hop]
      simp [hf]
    · have hop : (fun n => (f n, n + 1)) n₀ = ((Except.ok v : Except E α), n₀ + 1) := by
        simp [hf]
      rw [retryAux_ok isR (fun n => (f n, n + 1)) hop]
      simp [hf]
  | succ r ih =>
    intro n₀
    rcases hf : f n₀ with e | v
    · have hop : (fun n => (f n, n + 1)) n₀ = ((Except.error e : Except E α), n₀ + 1) := by
        simp [hf]
      by_cases hr : isR e = true
      · obtain ⟨k, hk1, hk2, heq, hpre⟩ := ih (n₀ + 1)
        refine ⟨k + 1, by omega, by omega, ?_, ?_⟩
        · rw [retryAux_succ_retry isR (fun n => (f n, n + 1)) hop hr, heq]
          have h1 : n₀ + 1 + k - 1 = n₀ + (k + 1) - 1 := by omega
          have h2 : n₀ + 1 + k = n₀ + (k + 1) := by omega
          rw [h1, h2]
        · intro i hi
          match i with
          | 0 => exact ⟨e, by simpa using hf, hr⟩
          | j + 1 =>
            have := hpre j (by omega)
            simpa [Nat.add_assoc, Nat.add_comm 1 j] using this
      · refine ⟨1, le_refl 1, by omega, ?_, by omega⟩
        rw [retryAux_stop_nonretryable isR (fun n => (f n, n + 1)) hop
          (eq_false_of_ne_true hr)]
        simp [hf]
    · refine ⟨1, le_refl 1, by omega, ?_, by omega⟩
      have hop : (fun n => (f n, n + 1)) n₀ = ((Except.ok v : Except E α), n₀ + 1) := by
        simp [hf]
      rw [retryAux_ok isR (fun n => (f n, n + 1)) hop]
      simp [hf]

/-- C5: the claim quantifies over every `RetryConfig`, but with
`max_attempts = 0` a non-retryable always-failing operation is invoked
zero times — not exactly once — and `retry_with_backoff` panics on
`last_error.unwrap()` (result `none`) instead of returning the error:
the invocation counter stays 0 and differs from the claimed 1. -/
theorem C5_zero_attempts_counterexample :
    (retryWithBackoff AppError.isRetryable
        (fun n => ((Except.error (AppError.mkValidation "Non-retryable error") :
          Except AppError String), n + 1)) 0 0).2 = 0 ∧
    (retryWithBackoff AppError.isRetryable
        (fun n => ((Except.error (AppError.mkValidation "Non-retryable error") :
          Except AppError String), n + 1)) 0 0).1 = none ∧
    ¬((retryWithBackoff AppError.isRetryable
        (fun n => ((Except.error (AppError.mkValidation "Non-retryable error") :
          Except AppError String), n + 1)) 0 0).2 = 1) :=
  ⟨rfl, rfl, by decide⟩

/-- C5 (amended): for every `RetryConfig` with `max_attempts ≥ 1` and
every operation that always fails with a non-retryable error,
`retry_with_backoff` invokes the operation exactly once (the
invocation counter advances from `n₀` to `n₀ + 1`) and returns that
first error without further attempts. -/
theorem C5_nonretryable_invoked_once {α : Type} (f : Nat → AppError)
    (hf : ∀ n, (f n).isRetryable = false) (maxAttempts n₀ : Nat)
    (hmax : 1 ≤ maxAttempts) :
    retryWithBackoff AppError.isRetryable
        (fun n => ((Except.error (f n) : Except AppError α), n + 1)) maxAttempts n₀ =
      (some (.error (f n₀)), n₀ + 1) := by
  obtain ⟨m, rfl⟩ : ∃ m, maxAttempts = m + 1 := ⟨maxAttempts - 1, by omega⟩
  have hop : (fun n => ((Except.error (f n) : Except AppError α), n + 1)) n₀ =
      ((Except.error (f n₀) : Except AppError α), n₀ + 1) := rfl
  have hstop := retryAux_stop_nonretryable AppError.isRetryable
    (fun n => ((Except.error (f n) : Except AppError α), n + 1)) hop (hf n₀) m
  simp [retryWithBackoff, hstop]

/-- Witness for C5 (amended) at a Validation error under the default
three-attempt configuration. -/
theorem C5_nonretryable_invoked_once_witness :
    (AppError.mkValidation "Non-retryable error").isRetryable = false ∧
    retryWithBackoff AppError.isRetryable
        (fun n => ((Except.error (AppError.mkValidation "Non-retryable error") :
          Except AppError String), n + 1)) 3 0 =
      (some (.error (AppError.mkValidation "Non-retryable error")), 1) :=
  ⟨rfl, C5_nonretryable_invoked_once (fun _ => AppError.mkValidation "Non-retryable error")
    (fun _ => rfl) 3 0 (by decide)⟩

/-- C10: `retry_with_backoff` is total only for `max_attempts ≥ 1`.
With `max_attempts = 0` the operation is never invoked (counter
unchanged) and the function panics on the `unwrap` (result `none`);
with `max_attempts ≥ 1` it always returns (`some`) the outcome of the
last attempt made — the first success or the last observed error —
after `k ≤ max_attempts` attempts of which all but the last failed
with retryable errors. -/
theorem C10_retry_totality {α : Type} (f : Nat → Except AppError α) (n₀ : Nat) :
    retryWithBackoff AppError.isRetryable (fun n => (f n, n + 1)) 0 n₀ = (none, n₀)
    ∧ ∀ maxAttempts, 1 ≤ maxAttempts → ∃ k, 1 ≤ k ∧ k ≤ maxAttempts ∧
        retryWithBackoff AppError.isRetryable (fun n => (f n, n + 1)) maxAttempts n₀ =
          (some (f (n₀ + k - 1)), n₀ + k) ∧
        ∀ i, i + 1 < k → ∃ e, f (n₀ + i) = .error e ∧ e.isRetryable = true := by
  refine ⟨rfl, ?_⟩
  intro maxAttempts hmax
  obtain ⟨m, rfl⟩ : ∃ m, maxAttempts = m + 1 := ⟨maxAttempts - 1, by omega⟩
  obtain ⟨k, hk1, hk2, heq, hpre⟩ := retryAux_char AppError.isRetryable f m n₀
  exact ⟨k, hk1, hk2, by simp [retryWithBackoff, heq], hpre⟩

/-- Witness for C10 at an operation failing twice with a retryable
Database error and succeeding on the third call, under the default
three-attempt configuration. -/
theorem C10_retry_totality_witness :
    1 ≤ 3 ∧
    retryWithBackoff AppError.isRetryable
        (fun n => ((if n < 2 then Except.error (AppError.mkDatabase "busy")
          else Except.ok (7 : Nat)), n + 1)) 0 0 = (none, 0) ∧
    ∃ k, 1 ≤ k ∧ k ≤ 3 ∧
      retryWithBackoff AppError.isRetryable
          (fun n => ((if n < 2 then Except.error (AppError.mkDatabase "busy")
            else Except.ok (7 : Nat)), n + 1)) 3 0 =
        (some (if 0 + k - 1 < 2 then Except.error (AppError.mkDatabase "busy")
          else Except.ok (7 : Nat)), 0 + k) ∧
      ∀ i, i + 1 < k →
        ∃ e, (if 0 + i < 2 then Except.error (AppError.mkDatabase "busy")
          else Except.ok (7 : Nat)) = .error e ∧ e.isRetryable = true :=
  ⟨by decide,
    (C10_retry_totality
      (fun n => if n < 2 then Except.error (AppError.mkDatabase "busy")
        else Except.ok (7 : Nat)) 0).1,
    (C10_retry_totality
      (fun n => if n < 2 then Except.error (AppError.mkDatabase "busy")
        else Except.ok (7 : Nat)) 0).2 3 (by decide)⟩

/-- C7: with two parseable lines `"a"` (older) and `"b"` (most
recent) and limit 2, `get_recent_errors` returns `["a", "b"]` —
oldest first — not the claimed most-recent-first order `["b", "a"]`:
the final `errors.reverse()` (error.rs line 382) undoes the reversed
walk of the lines. -/
theorem C7_order_counterexample :
    getRecentErrors (fun s => some s) ["a", "b"] 2 = ["a", "b"] ∧
    ¬(getRecentErrors (fun s => some s) ["a", "b"] 2 = ["b", "a"]) :=
  ⟨rfl, by decide⟩

/-- C7 (amended): `get_recent_errors(limit)` selects the last `limit`
lines of the append-only log (the most recent ones), silently skips
any unparseable line, and returns the surviving entries in
chronological order — most recent entry last, not first; the result
has at most `limit` entries. -/
theorem C7_recent_errors_spec {E : Type} (parseLine : String → Option E)
    (lines : List String) (limit : Nat) :
    getRecentErrors parseLine lines limit =
      (lines.drop (lines.length - limit)).filterMap parseLine ∧
    (getRecentErrors parseLine lines limit).length ≤ limit := by
  constructor
  · show (((lines.reverse).take limit).filterMap parseLine).reverse = _
    rw [← List.filterMap_reverse]
    congr 1
    exact (List.rtake_eq_reverse_take_reverse lines limit).symm
  · have h1 : ((lines.reverse.take limit).filterMap parseLine).length ≤
        (lines.reverse.take limit).length := List.length_filterMap_le _ _
    have h2 : (lines.reverse.take limit).length ≤ limit := by
      simp
    simp only [getRecentErrors, List.length_reverse]
    omega

/-- An error of the Database kind is retryable
(`is_retryable`, error.rs line 249). -/
theorem isRetryable_of_isDatabase (e : AppError) (h : e.isDatabase = true) :
    e.isRetryable = true := by
  cases e <;> simp_all [AppError.isDatabase, AppError.isRetryable]

/-- If every attempt of the configure chain fails with a Database-kind
error, `get_connection` on a cold service surfaces a Database-kind
error and leaves the pool `None` — `*pool = Some(db)` is only reached
after the configure step succeeds. -/
theorem getConnection_config_fails {DB V : Type} (env : Env DB V)
    (st : DbSt DB V) (db : DB)
    (hpool : st.pool = none)
    (hinit : env.initRes st.initCalls = .ok db)
    (hcfg : ∀ i, ∃ e, cfgOnce env i = .error e ∧ e.isDatabase = true) :
    ∃ e, (getConnection env st).1 = Except.error e ∧ e.isDatabase = true ∧
      (getConnection env st).2.pool = none := by
  obtain ⟨pool, cache, sc, ic, cc, lg⟩ := st
  replace hpool : pool = none := hpool
  subst hpool
  replace hinit : env.initRes ic = .ok db := hinit
  have hiop : initOp env ⟨none, cache, sc, ic, cc, lg⟩ =
      (Except.ok db, ⟨none, cache, sc, ic + 1, cc, lg⟩) := by
    simp [initOp, hinit]
  have hinitRet := retryAux_ok AppError.isRetryable (initOp env) hiop 2
  obtain ⟨e₀, hc₀, hd₀⟩ := hcfg cc
  obtain ⟨e₁, hc₁, hd₁⟩ := hcfg (cc + 1)
  obtain ⟨e₂, hc₂, hd₂⟩ := hcfg (cc + 2)
  have hop₀ : cfgOp env ⟨none, cache, sc, ic + 1, cc, lg⟩ =
      (Except.error e₀, ⟨none, cache, sc, ic + 1, cc + 1, lg⟩) := by
    simp [cfgOp, hc₀]
  have hop₁ : cfgOp env ⟨none, cache, sc, ic + 1, cc + 1, lg⟩ =
      (Except.error e₁, ⟨none, cache, sc, ic + 1, cc + 2, lg⟩) := by
    simp [cfgOp, hc₁]
  have hop₂ : cfgOp env ⟨none, cache, sc, ic + 1, cc + 2, lg⟩ =
      (Except.error e₂, ⟨none, cache, sc, ic + 1, cc + 3, lg⟩) := by
    simp [cfgOp, hc₂]
  have hcfgRet : retryAux AppError.isRetryable (cfgOp env) 2
      ⟨none, cache, sc, ic + 1, cc, lg⟩ =
      (Except.error e₂, ⟨none, cache, sc, ic + 1, cc + 3, lg⟩) := by
    rw [retryAux_succ_retry AppError.isRetryable (cfgOp env) hop₀
      (isRetryable_of_isDatabase e₀ hd₀)]
    rw [retryAux_succ_retry AppError.isRetryable (cfgOp env) hop₁
      (isRetryable_of_isDatabase e₁ hd₁)]
    rw [retryAux_zero_err AppError.isRetryable (cfgOp env) hop₂]
  refine ⟨e₂, ?_, hd₂, ?_⟩ <;> simp [getConnection, hinitRet, hcfgRet]

/-- C6: if any one of the four session-configuration statements — WAL
mode (`j = 0`), synchronous mode (`j = 1`), cache size (`j = 2`) or
foreign keys (`j = 3`) — fails persistently during initialization
while the statements before it succeed and the open itself succeeds,
`get_connection` surfaces the failure as a Database-kind error and the
pool field stays `None`: the partially configured handle is never
published, so the next caller retries initialization from scratch. -/
theorem C6_partial_config_atomicity {DB V : Type} (env : Env DB V)
    (st : DbSt DB V) (db : DB) (j : Fin 4) (m : Nat → String)
    (hpool : st.pool = none)
    (hinit : env.initRes st.initCalls = .ok db)
    (hprev : ∀ i, ∀ j' : Fin 4, j'.val < j.val → env.pragmaRes i j' = .ok ())
    (hfail : ∀ i, env.pragmaRes i j = .error (m i)) :
    ∃ e, (getConnection env st).1 = Except.error e ∧ e.isDatabase = true ∧
      (getConnection env st).2.pool = none := by
  apply getConnection_config_fails env st db hpool hinit
  intro i
  obtain ⟨jv, hjv⟩ := j
  interval_cases jv
  · have hf : env.pragmaRes i 0 = .error (m i) := hfail i
    exact ⟨AppError.databaseWithQuery ("Failed to set WAL mode: " ++ m i)
      "PRAGMA journal_mode=WAL", by simp [cfgOnce, hf], rfl⟩
  · have hp0 : env.pragmaRes i 0 = .ok () :=
      hprev i 0 (show (0 : Fin 4).val < 1 by decide)
    have hf : env.pragmaRes i 1 = .error (m i) := hfail i
    exact ⟨AppError.databaseWithQuery ("Failed to set synchronous mode: " ++ m i)
      "PRAGMA synchronous=NORMAL", by simp [cfgOnce, hp0, hf], rfl⟩
  · have hp0 : env.pragmaRes i 0 = .ok () :=
      hprev i 0 (show (0 : Fin 4).val < 2 by decide)
    have hp1 : env.pragmaRes i 1 = .ok () :=
      hprev i 1 (show (1 : Fin 4).val < 2 by decide)
    have hf : env.pragmaRes i 2 = .error (m i) := hfail i
    exact ⟨AppError.databaseWithQuery ("Failed to set cache size: " ++ m i)
      "PRAGMA cache_size=10000", by simp [cfgOnce, hp0, hp1, hf], rfl⟩
  · have hp0 : env.pragmaRes i 0 = .ok () :=
      hprev i 0 (show (0 : Fin 4).val < 3 by decide)
    have hp1 : env.pragmaRes i 1 = .ok () :=
      hprev i 1 (show (1 : Fin 4).val < 3 by decide)
    have hp2 : env.pragmaRes i 2 = .ok () :=
      hprev i 2 (show (2 : Fin 4).val < 3 by decide)
    have hf : env.pragmaRes i 3 = .error (m i) := hfail i
    exact ⟨AppError.databaseWithQuery ("Failed to enable foreign keys: " ++ m i)
      "PRAGMA foreign_keys=ON", by simp [cfgOnce, hp0, hp1, hp2, hf], rfl⟩

/-- Witness for C6: a cold service whose store opens fine but whose
third statement (cache size, `j = 2`) fails persistently with
"disk error". -/
theorem C6_partial_config_atomicity_witness :
    (⟨none, [], 0, 0, 0, []⟩ : DbSt Nat Nat).pool = none ∧
    ∃ e, (getConnection
        (⟨fun _ => .ok 5, fun _ j => if j.val ≤ 1 then .ok () else .error "disk error",
          fun _ => .ok 0, fun _ => .ok "", fun _ => .ok 0⟩ : Env Nat Nat)
        ⟨none, [], 0, 0, 0, []⟩).1 = Except.error e ∧
      e.isDatabase = true ∧
      (getConnection
        (⟨fun _ => .ok 5, fun _ j => if j.val ≤ 1 then .ok () else .error "disk error",
          fun _ => .ok 0, fun _ => .ok "", fun _ => .ok 0⟩ : Env Nat Nat)
        ⟨none, [], 0, 0, 0, []⟩).2.pool = none :=
  ⟨rfl, C6_partial_config_atomicity _ _ 5 ⟨2, by decide⟩ (fun _ => "disk error") rfl rfl
    (fun i j' hj' => by
      have h2 : j'.val < 2 := hj'
      exact if_pos (by omega))
    (fun i => rfl)⟩

/-- A warm service: `get_connection` returns the memoized handle and
leaves the state untouched. -/
theorem getConnection_warm {DB V : Type} (env : Env DB V) (s : DbSt DB V) (db : DB)
    (h : s.pool = some db) : getConnection env s = (.ok db, s) := by
  simp [getConnection, h]

/-- Once the pool is populated, any number of further callers all
receive the shared handle and the state never changes again. -/
theorem runCallers_warm {DB V : Type} (env : Env DB V) (db : DB) :
    ∀ (k : Nat) (s : DbSt DB V), s.pool = some db →
      runCallers env k s = (List.replicate k (.ok db), s) := by
  intro k
  induction k with
  | zero => intro s h; simp [runCallers]
  | succ k ih =>
    intro s h
    simp [runCallers, getConnection_warm env s db h, ih s h, List.replicate_succ]

/-- C9: on a cold start, `n ≥ 1` callers of `get_connection`
(serialised by the pool mutex, which is held for the whole body)
produce exactly one open attempt and one configure sequence, every
caller receives the same ready handle, and the published pool holds
that handle. -/
theorem C9_single_initialization {DB V : Type} (env : Env DB V) (st : DbSt DB V)
    (db : DB) (hpool : st.pool = none) (hic : st.initCalls = 0) (hcc : st.cfgCalls = 0)
    (hinit : env.initRes 0 = .ok db) (hprag : ∀ j, env.pragmaRes 0 j = .ok ())
    (n : Nat) (hn : 1 ≤ n) :
    (runCallers env n st).1 = List.replicate n (Except.ok db) ∧
    (runCallers env n st).2 =
      { st with pool := some db, initCalls := 1, cfgCalls := 1 } := by
  obtain ⟨pool, cache, sc, ic, cc, lg⟩ := st
  replace hpool : pool = none := hpool
  replace hic : ic = 0 := hic
  replace hcc : cc = 0 := hcc
  subst hpool hic hcc
  obtain ⟨k, rfl⟩ : ∃ k, n = k + 1 := ⟨n - 1, by omega⟩
  have hiop : initOp env ⟨none, cache, sc, 0, 0, lg⟩ =
      (Except.ok db, ⟨none, cache, sc, 1, 0, lg⟩) := by
    simp [initOp, hinit]
  have hinitRet := retryAux_ok AppError.isRetryable (initOp env) hiop 2
  have hcfgOnce : cfgOnce env 0 = .ok () := by
    simp [cfgOnce, hprag 0, hprag 1, hprag 2, hprag 3]
  have hcop : cfgOp env ⟨none, cache, sc, 1, 0, lg⟩ =
      (Except.ok (), ⟨none, cache, sc, 1, 1, lg⟩) := by
    simp [cfgOp, hcfgOnce]
  have hcfgRet := retryAux_ok AppError.isRetryable (cfgOp env) hcop 2
  have hconn : getConnection env ⟨none, cache, sc, 0, 0, lg⟩ =
      (.ok db, ⟨some db, cache, sc, 1, 1, lg⟩) := by
    simp [getConnection, hinitRet, hcfgRet]
  have hwarm := runCallers_warm env db k ⟨some db, cache, sc, 1, 1, lg⟩ rfl
  simp [runCallers, hconn, hwarm, List.replicate_succ]

/-- Witness for C9: three callers on a cold service whose open and
pragmas all succeed; one open, one configure, all three get handle 5. -/
theorem C9_single_initialization_witness :
    (⟨none, [], 0, 0, 0, []⟩ : DbSt Nat Nat).pool = none ∧ 1 ≤ 3 ∧
    (runCallers (⟨fun _ => .ok 5, fun _ _ => .ok (), fun _ => .ok 0, fun _ => .ok "",
        fun _ => .ok 0⟩ : Env Nat Nat) 3 ⟨none, [], 0, 0, 0, []⟩).1 =
      List.replicate 3 (Except.ok 5) ∧
    (runCallers (⟨fun _ => .ok 5, fun _ _ => .ok (), fun _ => .ok 0, fun _ => .ok "",
        fun _ => .ok 0⟩ : Env Nat Nat) 3 ⟨none, [], 0, 0, 0, []⟩).2 =
      ⟨some 5, [], 0, 1, 1, []⟩ :=
  ⟨rfl, by decide,
    (C9_single_initialization _ _ 5 rfl rfl rfl rfl (fun _ => rfl) 3 (by decide)).1,
    (C9_single_initialization _ _ 5 rfl rfl rfl rfl (fun _ => rfl) 3 (by decide)).2⟩

/-- Association-list lookup is unaffected by filtering out a
different key. -/
theorem lookup_filter_ne (c : List (String × CacheEntry)) (k k' : String)
    (h : k' ≠ k) :
    (c.filter (fun p => !(p.1 == k))).lookup k' = c.lookup k' := by
  induction c with
  | nil => rfl
  | cons a t ih =>
    rcases a with ⟨a1, a2⟩
    rw [List.filter_cons]
    by_cases ha : (a1 == k) = true
    · have ha' : a1 = k := by simpa using ha
      have hk'a : (k' == a1) = false := beq_eq_false_iff_ne.mpr (ha' ▸ h)
      simp only [ha, Bool.not_true, Bool.false_eq_true, if_false]
      rw [ih, List.lookup_cons, hk'a]
    · have ha' : (a1 == k) = false := eq_false_of_ne_true ha
      simp only [ha', Bool.not_false, if_true]
      rw [List.lookup_cons, List.lookup_cons]
      by_cases hk : (k' == a1) = true
      · rw [hk]
      · rw [eq_false_of_ne_true hk]
        exact ih

/-- Filtering out a key that is not bound leaves the list unchanged. -/
theorem filter_eq_of_lookup_none (c : List (String × CacheEntry)) (k : String)
    (h : c.lookup k = none) :
    c.filter (fun p => !(p.1 == k)) = c := by
  induction c with
  | nil => rfl
  | cons a t ih =>
    rcases a with ⟨a1, a2⟩
    rw [List.lookup_cons] at h
    by_cases ha : (k == a1) = true
    · rw [ha] at h
      simp at h
    · have ha' : (k == a1) = false := eq_false_of_ne_true ha
      rw [ha'] at h
      have h1 : (a1 == k) = false := by
        refine beq_eq_false_iff_ne.mpr (fun hh => ?_)
        rw [hh] at ha'
        simp at ha'
      rw [List.filter_cons]
      simp only [h1, Bool.not_false, if_true]
      rw [ih h]

/-- The key just inserted is bound to the new entry. -/
theorem cacheInsert_lookup_self (c : List (String × CacheEntry)) (k v : String)
    (now : Nat) : (cacheInsert c k v now).lookup k = some ⟨v, now⟩ := by
  simp [cacheInsert, List.lookup_cons]

/-- Every other binding survives an insertion unchanged — the insert
path performs no eviction of any kind. -/
theorem cacheInsert_lookup_ne (c : List (String × CacheEntry)) (k v : String)
    (now : Nat) (k' : String) (h : k' ≠ k) :
    (cacheInsert c k v now).lookup k' = c.lookup k' := by
  rw [cacheInsert, List.lookup_cons, beq_eq_false_iff_ne.mpr h]
  exact lookup_filter_ne c k k' h

/-- Inserting a fresh key grows the entry count by exactly one. -/
theorem cacheInsert_length (c : List (String × CacheEntry)) (k v : String)
    (now : Nat) (h : c.lookup k = none) :
    (cacheInsert c k v now).length = c.length + 1 := by
  rw [cacheInsert, filter_eq_of_lookup_none c k h]
  simp

/-- Fresh-hit equation: for a SELECT whose key is cached, the entry is
re-parsed and returned with the state untouched — whatever the
entry's (ghost) age. -/
theorem executeWithCache_hit_ok {DB V : Type} (env : Env DB V) (now : Nat)
    (sql : String) (params : List String) (st : DbSt DB V) (entry : CacheEntry) (r : V)
    (hsel : isSelectStmt sql = true)
    (hhit : st.cache.lookup (cacheKeyFmt sql params) = some entry)
    (hparse : env.parse entry.val = .ok r) :
    executeWithCache env now sql params st = (.ok r, st) := by
  simp [executeWithCache, hsel, hhit, hparse]

/-- Miss equation: for a SELECT with no cached entry, a warm pool, a
first-attempt store success and a successful serialization, the fresh
result is returned, exactly one store call is made, and the serialized
result is inserted into the cache stamped with the call time. -/
theorem executeWithCache_miss_ok {DB V : Type} (env : Env DB V) (now : Nat)
    (sql : String) (params : List String) (st : DbSt DB V) (db : DB) (r : V)
    (srl : String)
    (hsel : isSelectStmt sql = true)
    (hmiss : st.cache.lookup (cacheKeyFmt sql params) = none)
    (hpool : st.pool = some db)
    (hstore : env.store st.storeCalls = .ok r)
    (hser : env.ser r = .ok srl) :
    executeWithCache env now sql params st =
      (.ok r,
        { st with
            cache := cacheInsert st.cache (cacheKeyFmt sql params) srl now,
            storeCalls := st.storeCalls + 1 }) := by
  have hexec : execOnce env sql st =
      (.ok r, { st with storeCalls := st.storeCalls + 1 }) := by
    simp [execOnce, getConnection_warm env st db hpool, hstore]
  have hret := retryAux_ok AppError.isRetryable (execOnce env sql) hexec 2
  simp [executeWithCache, hsel, hmiss, hret, hser]

/-- C3: a SELECT executed twice with the same parameters and no
intervening write, the second call within 300 seconds of the first,
issues exactly one underlying store call, and both calls return the
same result `r` (the second via the serialize/parse round trip through
the cache). -/
theorem C3_cache_round_trip {DB V : Type} (env : Env DB V) (sql : String)
    (params : List String) (st : DbSt DB V) (db : DB) (r : V) (srl : String)
    (t₁ t₂ : Nat)
    (hsel : isSelectStmt sql = true)
    (hmiss : st.cache.lookup (cacheKeyFmt sql params) = none)
    (hpool : st.pool = some db)
    (hstore : env.store st.storeCalls = .ok r)
    (hser : env.ser r = .ok srl)
    (hparse : env.parse srl = .ok r)
    (_hle : t₁ ≤ t₂) (_hwin : t₂ ≤ t₁ + 300) :
    (executeWithCache env t₁ sql params st).1 = .ok r ∧
    (executeWithCache env t₂ sql params
      (executeWithCache env t₁ sql params st).2).1 = .ok r ∧
    (executeWithCache env t₂ sql params
      (executeWithCache env t₁ sql params st).2).2.storeCalls = st.storeCalls + 1 := by
  have h1 := executeWithCache_miss_ok env t₁ sql params st db r srl
    hsel hmiss hpool hstore hser
  have hlook : ({ st with
      cache := cacheInsert st.cache (cacheKeyFmt sql params) srl t₁,
      storeCalls := st.storeCalls + 1 } : DbSt DB V).cache.lookup
        (cacheKeyFmt sql params) = some ⟨srl, t₁⟩ :=
    cacheInsert_lookup_self _ _ _ _
  have h2 := executeWithCache_hit_ok env t₂ sql params _ ⟨srl, t₁⟩ r hsel hlook hparse
  simp [h1, h2]

/-- Witness for C3: `SELECT * FROM manuscripts` issued at times 0 and
100 against a warm pool, result 42 serialized as "42". -/
theorem C3_cache_round_trip_witness :
    isSelectStmt "SELECT * FROM manuscripts" = true ∧ (0 : Nat) ≤ 100 ∧ 100 ≤ 0 + 300 ∧
    ((executeWithCache (⟨fun _ => .ok 1, fun _ _ => .ok (), fun _ => .ok 42,
        fun _ => .ok "42", fun s => if s = "42" then .ok 42 else .error "bad"⟩ :
        Env Nat Nat) 0 "SELECT * FROM manuscripts" []
        ⟨some 1, [], 0, 0, 0, []⟩).1 = .ok 42 ∧
      (executeWithCache (⟨fun _ => .ok 1, fun _ _ => .ok (), fun _ => .ok 42,
        fun _ => .ok "42", fun s => if s = "42" then .ok 42 else .error "bad"⟩ :
        Env Nat Nat) 100 "SELECT * FROM manuscripts" []
        (executeWithCache (⟨fun _ => .ok 1, fun _ _ => .ok (), fun _ => .ok 42,
          fun _ => .ok "42", fun s => if s = "42" then .ok 42 else .error "bad"⟩ :
          Env Nat Nat) 0 "SELECT * FROM manuscripts" []
          ⟨some 1, [], 0, 0, 0, []⟩).2).1 = .ok 42 ∧
      (executeWithCache (⟨fun _ => .ok 1, fun _ _ => .ok (), fun _ => .ok 42,
        fun _ => .ok "42", fun s => if s = "42" then .ok 42 else .error "bad"⟩ :
        Env Nat Nat) 100 "SELECT * FROM manuscripts" []
        (executeWithCache (⟨fun _ => .ok 1, fun _ _ => .ok (), fun _ => .ok 42,
          fun _ => .ok "42", fun s => if s = "42" then .ok 42 else .error "bad"⟩ :
          Env Nat Nat) 0 "SELECT * FROM manuscripts" []
          ⟨some 1, [], 0, 0, 0, []⟩).2).2.storeCalls = 0 + 1) :=
  ⟨rfl, by decide, by decide,
    C3_cache_round_trip _ "SELECT * FROM manuscripts" [] ⟨some 1, [], 0, 0, 0, []⟩
      1 42 "42" 0 100 rfl rfl rfl rfl rfl rfl (by decide) (by decide)⟩

/-- C1: a second identical SELECT issued 301 seconds after the first —
past the claimed 300-second TTL — is still served from the cache: the
store-call counter stays at 1 (no fresh store call) and the stale
entry's value is returned.  The cache consults no clock, so no TTL
exists. -/
theorem C1_ttl_counterexample :
    301 > 0 + 300 ∧
    (executeWithCache (⟨fun _ => .ok 1, fun _ _ => .ok (), fun _ => .ok 42,
        fun _ => .ok "42", fun s => if s = "42" then .ok 42 else .error "bad"⟩ :
        Env Nat Nat) 301 "SELECT * FROM manuscripts" []
        (executeWithCache (⟨fun _ => .ok 1, fun _ _ => .ok (), fun _ => .ok 42,
          fun _ => .ok "42", fun s => if s = "42" then .ok 42 else .error "bad"⟩ :
          Env Nat Nat) 0 "SELECT * FROM manuscripts" []
          ⟨some 1, [], 0, 0, 0, []⟩).2).2.storeCalls = 1 ∧
    ¬((executeWithCache (⟨fun _ => .ok 1, fun _ _ => .ok (), fun _ => .ok 42,
        fun _ => .ok "42", fun s => if s = "42" then .ok 42 else .error "bad"⟩ :
        Env Nat Nat) 301 "SELECT * FROM manuscripts" []
        (executeWithCache (⟨fun _ => .ok 1, fun _ _ => .ok (), fun _ => .ok 42,
          fun _ => .ok "42", fun s => if s = "42" then .ok 42 else .error "bad"⟩ :
          Env Nat Nat) 0 "SELECT * FROM manuscripts" []
          ⟨some 1, [], 0, 0, 0, []⟩).2).2.storeCalls = 2) ∧
    (executeWithCache (⟨fun _ => .ok 1, fun _ _ => .ok (), fun _ => .ok 42,
        fun _ => .ok "42", fun s => if s = "42" then .ok 42 else .error "bad"⟩ :
        Env Nat Nat) 301 "SELECT * FROM manuscripts" []
        (executeWithCache (⟨fun _ => .ok 1, fun _ _ => .ok (), fun _ => .ok 42,
          fun _ => .ok "42", fun s => if s = "42" then .ok 42 else .error "bad"⟩ :
          Env Nat Nat) 0 "SELECT * FROM manuscripts" []
          ⟨some 1, [], 0, 0, 0, []⟩).2).1 = .ok 42 :=
  ⟨by decide, rfl, by decide, rfl⟩

/-- C1 (amended): `execute_with_cache` returns a cached result
whenever an entry for the key is present, regardless of the entry's
age — the cache has no TTL.  A second identical call after ANY delay
`t₂` (in particular past the 300-second window) is served from the
cache: it returns the round-tripped result and issues no fresh store
call. -/
theorem C1_cache_hit_regardless_of_age {DB V : Type} (env : Env DB V) (sql : String)
    (params : List String) (st : DbSt DB V) (db : DB) (r : V) (srl : String)
    (t₁ t₂ : Nat)
    (hsel : isSelectStmt sql = true)
    (hmiss : st.cache.lookup (cacheKeyFmt sql params) = none)
    (hpool : st.pool = some db)
    (hstore : env.store st.storeCalls = .ok r)
    (hser : env.ser r = .ok srl)
    (hparse : env.parse srl = .ok r) :
    (executeWithCache env t₂ sql params
      (executeWithCache env t₁ sql params st).2).1 = .ok r ∧
    (executeWithCache env t₂ sql params
      (executeWithCache env t₁ sql params st).2).2.storeCalls = st.storeCalls + 1 := by
  have h1 := executeWithCache_miss_ok env t₁ sql params st db r srl
    hsel hmiss hpool hstore hser
  have hlook : ({ st with
      cache := cacheInsert st.cache (cacheKeyFmt sql params) srl t₁,
      storeCalls := st.storeCalls + 1 } : DbSt DB V).cache.lookup
        (cacheKeyFmt sql params) = some ⟨srl, t₁⟩ :=
    cacheInsert_lookup_self _ _ _ _
  have h2 := executeWithCache_hit_ok env t₂ sql params _ ⟨srl, t₁⟩ r hsel hlook hparse
  simp [h1, h2]

/-- Witness for C1 (amended), with the second call at time 301 —
outside the claimed TTL window. -/
theorem C1_cache_hit_regardless_of_age_witness :
    isSelectStmt "SELECT * FROM manuscripts" = true ∧
    ((executeWithCache (⟨fun _ => .ok 1, fun _ _ => .ok (), fun _ => .ok 42,
        fun _ => .ok "42", fun s => if s = "42" then .ok 42 else .error "bad"⟩ :
        Env Nat Nat) 301 "SELECT * FROM manuscripts" []
        (executeWithCache (⟨fun _ => .ok 1, fun _ _ => .ok (), fun _ => .ok 42,
          fun _ => .ok "42", fun s => if s = "42" then .ok 42 else .error "bad"⟩ :
          Env Nat Nat) 0 "SELECT * FROM manuscripts" []
          ⟨some 1, [], 0, 0, 0, []⟩).2).1 = .ok 42 ∧
      (executeWithCache (⟨fun _ => .ok 1, fun _ _ => .ok (), fun _ => .ok 42,
        fun _ => .ok "42", fun s => if s = "42" then .ok 42 else .error "bad"⟩ :
        Env Nat Nat) 301 "SELECT * FROM manuscripts" []
        (executeWithCache (⟨fun _ => .ok 1, fun _ _ => .ok (), fun _ => .ok 42,
          fun _ => .ok "42", fun s => if s = "42" then .ok 42 else .error "bad"⟩ :
          Env Nat Nat) 0 "SELECT * FROM manuscripts" []
          ⟨some 1, [], 0, 0, 0, []⟩).2).2.storeCalls = 0 + 1) :=
  ⟨rfl, C1_cache_hit_regardless_of_age _ "SELECT * FROM manuscripts" []
    ⟨some 1, [], 0, 0, 0, []⟩ 1 42 "42" 0 301 rfl rfl rfl rfl rfl rfl⟩

set_option maxRecDepth 100000 in
/-- C2: a cache of 1001 entries, all inserted at (ghost) time 0, takes
a further SELECT population at time 400.  The entry count, 1002,
exceeds 1000 and every pre-existing entry is 400 seconds old — older
than the claimed 300-second TTL — yet after the put all of them
remain: no sweep of any kind exists in the code. -/
theorem C2_sweep_counterexample :
    (executeWithCache (⟨fun _ => .ok 1, fun _ _ => .ok (), fun _ => .ok 42,
        fun _ => .ok "w", fun _ => .error "unused"⟩ : Env Nat Nat) 400
        "SELECT fresh" []
        ⟨some 1, (List.range 1001).map (fun i => (toString i, ⟨"v", 0⟩)),
          0, 0, 0, []⟩).2.cache.length = 1002 ∧
    (executeWithCache (⟨fun _ => .ok 1, fun _ _ => .ok (), fun _ => .ok 42,
        fun _ => .ok "w", fun _ => .error "unused"⟩ : Env Nat Nat) 400
        "SELECT fresh" []
        ⟨some 1, (List.range 1001).map (fun i => (toString i, ⟨"v", 0⟩)),
          0, 0, 0, []⟩).2.cache.lookup "0" = some ⟨"v", 0⟩ ∧
    400 > 0 + 300 :=
  ⟨by decide, by decide, by decide⟩

/-- C2 (amended): the cache-population step of `execute_with_cache`
performs no eviction whatsoever: whatever the entry count (including
past 1000) and whatever the entries' ages (including past 300
seconds), after the insertion the new key maps to the new entry, every
other binding is exactly as before, and the entry count grows by one
(for a fresh key).  Entries leave the cache only via `clear_cache` or
by being overwritten under the same key. -/
theorem C2_no_eviction_on_put {DB V : Type} (env : Env DB V) (now : Nat)
    (sql : String) (params : List String) (st : DbSt DB V) (db : DB) (r : V)
    (srl : String)
    (hsel : isSelectStmt sql = true)
    (hmiss : st.cache.lookup (cacheKeyFmt sql params) = none)
    (hpool : st.pool = some db)
    (hstore : env.store st.storeCalls = .ok r)
    (hser : env.ser r = .ok srl) :
    (executeWithCache env now sql params st).2.cache.lookup (cacheKeyFmt sql params) =
      some ⟨srl, now⟩ ∧
    (∀ k', k' ≠ cacheKeyFmt sql params →
      (executeWithCache env now sql params st).2.cache.lookup k' = st.cache.lookup k') ∧
    (executeWithCache env now sql params st).2.cache.length = st.cache.length + 1 := by
  have h1 := executeWithCache_miss_ok env now sql params st db r srl
    hsel hmiss hpool hstore hser
  rw [h1]
  refine ⟨cacheInsert_lookup_self _ _ _ _, ?_, cacheInsert_length _ _ _ _ hmiss⟩
  intro k' hk'
  exact cacheInsert_lookup_ne _ _ _ _ _ hk'

/-- Witness for C2 (amended): a pre-existing 400-second-old entry
under key "old" survives the next population untouched. -/
theorem C2_no_eviction_on_put_witness :
    isSelectStmt "SELECT fresh" = true ∧
    (executeWithCache (⟨fun _ => .ok 1, fun _ _ => .ok (), fun _ => .ok 42,
        fun _ => .ok "w", fun _ => .error "unused"⟩ : Env Nat Nat) 400
        "SELECT fresh" [] ⟨some 1, [("old", ⟨"x", 0⟩)], 0, 0, 0, []⟩).2.cache.lookup
      (cacheKeyFmt "SELECT fresh" []) = some ⟨"w", 400⟩ ∧
    ("old" ≠ cacheKeyFmt "SELECT fresh" []) ∧
    (executeWithCache (⟨fun _ => .ok 1, fun _ _ => .ok (), fun _ => .ok 42,
        fun _ => .ok "w", fun _ => .error "unused"⟩ : Env Nat Nat) 400
        "SELECT fresh" [] ⟨some 1, [("old", ⟨"x", 0⟩)], 0, 0, 0, []⟩).2.cache.lookup
      "old" = [("old", (⟨"x", 0⟩ : CacheEntry))].lookup "old" ∧
    (executeWithCache (⟨fun _ => .ok 1, fun _ _ => .ok (), fun _ => .ok 42,
        fun _ => .ok "w", fun _ => .error "unused"⟩ : Env Nat Nat) 400
        "SELECT fresh" [] ⟨some 1, [("old", ⟨"x", 0⟩)], 0, 0, 0, []⟩).2.cache.length =
      1 + 1 :=
  ⟨rfl,
    (C2_no_eviction_on_put _ 400 "SELECT fresh" [] ⟨some 1, [("old", ⟨"x", 0⟩)], 0, 0, 0, []⟩
      1 42 "w" rfl rfl rfl rfl rfl).1,
    by decide,
    (C2_no_eviction_on_put _ 400 "SELECT fresh" [] ⟨some 1, [("old", ⟨"x", 0⟩)], 0, 0, 0, []⟩
      1 42 "w" rfl rfl rfl rfl rfl).2.1 "old" (by decide),
    (C2_no_eviction_on_put _ 400 "SELECT fresh" [] ⟨some 1, [("old", ⟨"x", 0⟩)], 0, 0, 0, []⟩
      1 42 "w" rfl rfl rfl rfl rfl).2.2⟩

/-- C4: when serializing the fresh result for cache population fails,
`execute_with_cache` does NOT return the fresh result: the `?` on
db.rs line 193 propagates the Internal error to the caller (and
nothing is appended to the error log). -/
theorem C4_serialization_counterexample :
    (executeWithCache (⟨fun _ => .ok 1, fun _ _ => .ok (), fun _ => .ok 42,
        fun _ => .error "boom", fun _ => .error "unused"⟩ : Env Nat Nat) 0
        "SELECT x" [] ⟨some 1, [], 0, 0, 0, []⟩).1 =
      .error (AppError.mkInternal ("Failed to serialize result for cache: " ++ "boom")) ∧
    (executeWithCache (⟨fun _ => .ok 1, fun _ _ => .ok (), fun _ => .ok 42,
        fun _ => .error "boom", fun _ => .error "unused"⟩ : Env Nat Nat) 0
        "SELECT x" [] ⟨some 1, [], 0, 0, 0, []⟩).1.isOk = false ∧
    (executeWithCache (⟨fun _ => .ok 1, fun _ _ => .ok (), fun _ => .ok 42,
        fun _ => .error "boom", fun _ => .error "unused"⟩ : Env Nat Nat) 0
        "SELECT x" [] ⟨some 1, [], 0, 0, 0, []⟩).2.log = [] :=
  ⟨rfl, rfl, rfl⟩

/-- C4 (amended): a serialization failure while populating the cache
aborts the enclosing read: `execute_with_cache` returns the Internal
error instead of the fresh result, the cache is left unchanged, and
the failure is not logged (only the store-call counter advanced). -/
theorem C4_serialization_aborts {DB V : Type} (env : Env DB V) (now : Nat)
    (sql : String) (params : List String) (st : DbSt DB V) (db : DB) (r : V)
    (m : String)
    (hsel : isSelectStmt sql = true)
    (hmiss : st.cache.lookup (cacheKeyFmt sql params) = none)
    (hpool : st.pool = some db)
    (hstore : env.store st.storeCalls = .ok r)
    (hser : env.ser r = .error m) :
    executeWithCache env now sql params st =
      (.error (AppError.mkInternal ("Failed to serialize result for cache: " ++ m)),
        { st with storeCalls := st.storeCalls + 1 }) := by
  have hexec : execOnce env sql st =
      (.ok r, { st with storeCalls := st.storeCalls + 1 }) := by
    simp [execOnce, getConnection_warm env st db hpool, hstore]
  have hret := retryAux_ok AppError.isRetryable (execOnce env sql) hexec 2
  simp [executeWithCache, hsel, hmiss, hret, hser]

/-- Witness for C4 (amended) at a serializer that fails with "boom". -/
theorem C4_serialization_aborts_witness :
    isSelectStmt "SELECT x" = true ∧
    executeWithCache (⟨fun _ => .ok 1, fun _ _ => .ok (), fun _ => .ok 42,
        fun _ => .error "boom", fun _ => .error "unused"⟩ : Env Nat Nat) 0
        "SELECT x" [] ⟨some 1, [], 0, 0, 0, []⟩ =
      (.error (AppError.mkInternal ("Failed to serialize result for cache: " ++ "boom")),
        ⟨some 1, [], 1, 0, 0, []⟩) :=
  ⟨rfl, C4_serialization_aborts _ 0 "SELECT x" [] ⟨some 1, [], 0, 0, 0, []⟩ 1 42 "boom"
    rfl rfl rfl rfl rfl⟩

/-- Reversed `\"` escape token: consume two characters. -/
theorem parseInner_escq (r : List Char) : parseInner ('"' :: '\\' :: r) = parseInner r := rfl

/-- Reversed `\\` escape token: consume two characters. -/
theorem parseInner_escbs (r : List Char) : parseInner ('\\' :: '\\' :: r) = parseInner r := rfl

/-- An element opening quote followed by the vector opener ends the
recognition, returning the remainder. -/
theorem parseInner_open (r : List Char) : parseInner ('"' :: '[' :: r) = some r := rfl

/-- An element opening quote followed by the reversed `", "`
separator continues with the previous element's body. -/
theorem parseInner_sep (r : List Char) :
    parseInner ('"' :: ' ' :: ',' :: '"' :: r) = parseInner r := rfl

/-- A plain character (not quote, not backslash) is consumed as
element content. -/
theorem parseInner_plain (a : Char) (h1 : a ≠ '"') (h2 : a ≠ '\\') (l : List Char) :
    parseInner (a :: l) = parseInner l := by
  cases l with
  | nil => simp [parseInner, h1, h2]
  | cons b m => simp [parseInner, h1, h2]

/-- The recogniser consumes a whole reversed escaped body and
continues with whatever follows it. -/
theorem parseInner_escape (p : List Char) :
    ∀ l, parseInner ((escapeChars p).reverse ++ l) = parseInner l := by
  induction p with
  | nil => intro l; simp [escapeChars]
  | cons a p ih =>
    intro l
    have hsplit : (escapeChars (a :: p)).reverse =
        (escapeChars p).reverse ++ (escapeChar a).reverse := by
      simp [escapeChars]
    rw [hsplit, List.append_assoc, ih]
    by_cases h1 : a = '"'
    · subst h1
      simp [escapeChar, parseInner_escq]
    · by_cases h2 : a = '\\'
      · subst h2
        simp [escapeChar, parseInner_escbs]
      · simp [escapeChar, h1, h2, parseInner_plain a h1 h2]

/-- Shape of a reversed nonempty element list: it opens with the
closing quote of the last element, and the recogniser consumes the
rest up to either the vector opener (returning the remainder) or a
separator (continuing with the previous element). -/
theorem dbgBody_rev_spec :
    ∀ (ps : List (List Char)) (p : List Char), ∃ γ,
      (dbgBody (p :: ps)).reverse = '"' :: γ ∧
      (∀ r, parseInner (γ ++ '[' :: r) = some r) ∧
      (∀ r, parseInner (γ ++ ' ' :: ',' :: '"' :: r) = parseInner r) := by
  intro ps
  induction ps with
  | nil =>
    intro p
    refine ⟨(escapeChars p).reverse ++ ['"'], ?_, ?_, ?_⟩
    · simp [dbgBody]
    · intro r
      rw [List.append_assoc]
      simp only [List.singleton_append]
      rw [parseInner_escape p ('"' :: '[' :: r)]
      exact parseInner_open r
    · intro r
      rw [List.append_assoc]
      simp only [List.singleton_append]
      rw [parseInner_escape p ('"' :: ' ' :: ',' :: '"' :: r)]
      exact parseInner_sep r
  | cons q qs ih =>
    intro p
    obtain ⟨γ', hγ', hT, hU⟩ := ih q
    refine ⟨γ' ++ ' ' :: ',' :: '"' :: ((escapeChars p).reverse ++ ['"']), ?_, ?_, ?_⟩
    · show (dbgBody (p :: q :: qs)).reverse = _
      have : dbgBody (p :: q :: qs) =
          ('"' :: escapeChars p) ++ '"' :: ',' :: ' ' :: dbgBody (q :: qs) := by
        simp [dbgBody]
      rw [this]
      simp [List.reverse_append, List.reverse_cons, hγ', List.append_assoc]
    · intro r
      simp only [List.cons_append, List.append_assoc, List.singleton_append,
        List.nil_append]
      rw [hU ((escapeChars p).reverse ++ '"' :: '[' :: r)]
      rw [parseInner_escape p ('"' :: '[' :: r)]
      exact parseInner_open r
    · intro r
      simp only [List.cons_append, List.append_assoc, List.singleton_append,
        List.nil_append]
      rw [hU ((escapeChars p).reverse ++ '"' :: ' ' :: ',' :: '"' :: r)]
      rw [parseInner_escape p ('"' :: ' ' :: ',' :: '"' :: r)]
      exact parseInner_sep r

/-- The recogniser consumes exactly the reversed `{:?}` rendering of
any parameter vector and returns what follows — so no rendering is a
proper suffix of another, and the rendering's extent inside a cache
key is unambiguous. -/
theorem parseKeyRev_dbg (ps : List (List Char)) (r : List Char) :
    parseKeyRev ((dbgChars ps).reverse ++ r) = some r := by
  cases ps with
  | nil =>
    show parseKeyRev ((dbgChars []).reverse ++ r) = some r
    simp [dbgChars, dbgBody, parseKeyRev]
  | cons p ps' =>
    obtain ⟨γ, hγ, hT, _⟩ := dbgBody_rev_spec ps' p
    have hshape : (dbgChars (p :: ps')).reverse ++ r =
        ']' :: '"' :: (γ ++ '[' :: r) := by
      simp only [dbgChars, List.reverse_cons, List.reverse_append, hγ]
      simp [List.cons_append, List.append_assoc]
    rw [hshape]
    show parseInner (γ ++ '[' :: r) = some r
    exact hT r

/-- The key format `sql ++ ":" ++ dbg(params)` determines the split
point: equal keys have equal SQL text and equal parameter
renderings. -/
theorem keyChars_inj (s₁ s₂ : List Char) (ps₁ ps₂ : List (List Char))
    (h : keyChars s₁ ps₁ = keyChars s₂ ps₂) :
    s₁ = s₂ ∧ dbgChars ps₁ = dbgChars ps₂ := by
  have hrev : (dbgChars ps₁).reverse ++ ':' :: s₁.reverse =
      (dbgChars ps₂).reverse ++ ':' :: s₂.reverse := by
    have h' := congrArg List.reverse h
    simpa [keyChars, List.reverse_append, List.reverse_cons, List.append_assoc] using h'
  have h1 := parseKeyRev_dbg ps₁ (':' :: s₁.reverse)
  have h2 := parseKeyRev_dbg ps₂ (':' :: s₂.reverse)
  rw [hrev, h2] at h1
  have hs : s₁ = s₂ := by
    have := Option.some.inj h1
    have := List.cons.inj this
    exact List.reverse_injective this.2.symm
  refine ⟨hs, ?_⟩
  subst hs
  have := List.append_cancel_left h
  exact List.cons.inj this |>.2

/-- An escaped body followed by a bare quote is uniquely decodable:
the escaping is a prefix code whose output never contains a bare
quote. -/
theorem escapeChars_decode :
    ∀ (p q u v : List Char),
      escapeChars p ++ '"' :: u = escapeChars q ++ '"' :: v → p = q ∧ u = v := by
  intro p
  induction p with
  | nil =>
    intro q u v h
    cases q with
    | nil =>
      simp [escapeChars] at h
      exact ⟨rfl, h⟩
    | cons b q' =>
      exfalso
      by_cases hb1 : b = '"'
      · subst hb1
        simp [escapeChars, escapeChar] at h
      · by_cases hb2 : b = '\\'
        · subst hb2
          simp [escapeChars, escapeChar] at h
        · simp [escapeChars, escapeChar, hb1, hb2] at h
          exact hb1 h.1.symm
  | cons a p' ih =>
    intro q u v h
    cases q with
    | nil =>
      exfalso
      by_cases ha1 : a = '"'
      · subst ha1
        simp [escapeChars, escapeChar] at h
      · by_cases ha2 : a = '\\'
        · subst ha2
          simp [escapeChars, escapeChar] at h
        · simp [escapeChars, escapeChar, ha1, ha2] at h
    | cons b q' =>
      by_cases ha1 : a = '"'
      · subst ha1
        by_cases hb1 : b = '"'
        · subst hb1
          simp only [escapeChars, List.flatMap_cons, escapeChar, if_pos rfl,
            List.cons_append, List.append_assoc] at h
          obtain ⟨-, h'⟩ := List.cons.inj h
          obtain ⟨-, h''⟩ := List.cons.inj h'
          obtain ⟨hp, hu⟩ := ih q' u v h''
          exact ⟨by rw [hp], hu⟩
        · by_cases hb2 : b = '\\'
          · subst hb2
            exfalso
            simp [escapeChars, escapeChar, hb1] at h
          · exfalso
            simp [escapeChars, escapeChar, hb1, hb2] at h
            exact hb2 h.1.symm
      · by_cases ha2 : a = '\\'
        · subst ha2
          by_cases hb1 : b = '"'
          · subst hb1
            exfalso
            simp [escapeChars, escapeChar, ha1] at h
          · by_cases hb2 : b = '\\'
            · subst hb2
              simp only [escapeChars, List.flatMap_cons, escapeChar, ha1, if_neg,
                if_pos rfl, List.cons_append, List.append_assoc] at h
              obtain ⟨-, h'⟩ := List.cons.inj h
              obtain ⟨-, h''⟩ := List.cons.inj h'
              obtain ⟨hp, hu⟩ := ih q' u v h''
              exact ⟨by rw [hp], hu⟩
            · exfalso
              simp [escapeChars, escapeChar, hb1, hb2] at h
              exact hb2 h.1.symm
        · by_cases hb1 : b = '"'
          · subst hb1
            exfalso
            simp [escapeChars, escapeChar, ha1, ha2] at h
          · by_cases hb2 : b = '\\'
            · subst hb2
              exfalso
              simp [escapeChars, escapeChar, ha1, ha2] at h
            · simp only [escapeChars, List.flatMap_cons, escapeChar, ha1, ha2, hb1, hb2,
                if_neg, List.cons_append] at h
              obtain ⟨hab, h'⟩ := List.cons.inj h
              obtain ⟨hp, hu⟩ := ih q' u v h'
              exact ⟨by rw [hab, hp], hu⟩

/-- The element-list rendering is injective. -/
theorem dbgBody_inj : ∀ ps₁ ps₂, dbgBody ps₁ = dbgBody ps₂ → ps₁ = ps₂ := by
  intro ps₁
  induction ps₁ with
  | nil =>
    intro ps₂ h
    cases ps₂ with
    | nil => rfl
    | cons q qs =>
      exfalso
      cases qs <;> simp [dbgBody] at h
  | cons p ps ih =>
    intro ps₂ h
    cases ps₂ with
    | nil =>
      exfalso
      cases ps <;> simp [dbgBody] at h
    | cons q qs =>
      cases ps with
      | nil =>
        cases qs with
        | nil =>
          simp only [dbgBody, List.cons_append] at h
          obtain ⟨-, h'⟩ := List.cons.inj h
          obtain ⟨hp, -⟩ := escapeChars_decode p q [] [] h'
          rw [hp]
        | cons q₁ qs' =>
          exfalso
          simp only [dbgBody, List.cons_append] at h
          obtain ⟨-, h'⟩ := List.cons.inj h
          obtain ⟨-, h2⟩ := escapeChars_decode p q [] (',' :: ' ' :: dbgBody (q₁ :: qs')) h'
          exact List.noConfusion h2
      | cons p₁ ps' =>
        cases qs with
        | nil =>
          exfalso
          simp only [dbgBody, List.cons_append] at h
          obtain ⟨-, h'⟩ := List.cons.inj h
          obtain ⟨-, h2⟩ := escapeChars_decode p q (',' :: ' ' :: dbgBody (p₁ :: ps')) [] h'
          exact List.noConfusion h2
        | cons q₁ qs' =>
          simp only [dbgBody, List.cons_append] at h
          obtain ⟨-, h'⟩ := List.cons.inj h
          obtain ⟨hp, h2⟩ := escapeChars_decode p q (',' :: ' ' :: dbgBody (p₁ :: ps'))
            (',' :: ' ' :: dbgBody (q₁ :: qs')) h'
          obtain ⟨-, h3⟩ := List.cons.inj h2
          obtain ⟨-, h4⟩ := List.cons.inj h3
          have hrest := ih (q₁ :: qs') h4
          rw [hp, hrest]

/-- The `{:?}` rendering of a parameter vector is injective. -/
theorem dbgChars_inj (ps₁ ps₂ : List (List Char)) (h : dbgChars ps₁ = dbgChars ps₂) :
    ps₁ = ps₂ := by
  apply dbgBody_inj
  simp only [dbgChars, List.cons_append] at h
  obtain ⟨-, h'⟩ := List.cons.inj h
  exact List.append_cancel_right h'

/-- C8: the cache key of db.rs line 152 — the SQL text, a colon, and
the Debug rendering of the parameter vector — is a deterministic
function of the statement text and the ordered parameter list, and it
is injective: two calls collide exactly when both the SQL text and
the parameter sequence (order included) agree. -/
theorem C8_cache_key_injective (sql₁ sql₂ : String) (params₁ params₂ : List String) :
    cacheKeyFmt sql₁ params₁ = cacheKeyFmt sql₂ params₂ ↔
      sql₁ = sql₂ ∧ params₁ = params₂ := by
  constructor
  · intro h
    have hd : keyChars sql₁.data (params₁.map String.data) =
        keyChars sql₂.data (params₂.map String.data) := congrArg String.data h
    obtain ⟨hs, hdbg⟩ := keyChars_inj _ _ _ _ hd
    have hsql : sql₁ = sql₂ := by
      cases sql₁
      cases sql₂
      exact congrArg String.mk hs
    have hmap := dbgChars_inj _ _ hdbg
    have hinj : Function.Injective String.data := by
      intro a b hab
      cases a
      cases b
      exact congrArg String.mk hab
    have hparams : params₁ = params₂ := List.map_injective_iff.mpr hinj hmap
    exact ⟨hsql, hparams⟩
  · rintro ⟨rfl, rfl⟩
    rfl
